import Mathlib

/-
Verification of the AppleSmartBattery polling state machine
(src/AppleSmartBatteryManager/AppleSmartBattery.cpp).

The development is a shallow embedding of the battery read sequencer: the
instance fields of the AppleSmartBattery object become a record, each C++
method becomes a Lean function from record to record, and the externally
visible side effects (bus reads, timer arming, delays, log records, snapshot
publication) become an explicit event list returned alongside the new state.
Machine integers are modelled as Nat with the byte masks the source applies.
-/

namespace SmartBattery

/-- SMBus transaction status codes, one constructor per code the driver
distinguishes (IOSMBusController.h; the source only tests these by equality). -/
inductive IOSMBusStatus where
  | ok
  | deviceAddressNotAcknowledged
  | deviceCommandAccessDenied
  | deviceAccessDenied
  | unknownHostError
  | unknownFailure
  | deviceError
  | timeout
  | busy
  | hostUnsupportedProtocol
  | pecError
deriving DecidableEq, Fintype, Repr

/-- STATUS_ERROR_NEEDS_RETRY from the source (lines 86 to 94). -/
def statusNeedsRetry : IOSMBusStatus → Bool
  | IOSMBusStatus.deviceAddressNotAcknowledged => true
  | IOSMBusStatus.deviceCommandAccessDenied => true
  | IOSMBusStatus.deviceAccessDenied => true
  | IOSMBusStatus.unknownHostError => true
  | IOSMBusStatus.unknownFailure => true
  | IOSMBusStatus.deviceError => true
  | IOSMBusStatus.timeout => true
  | IOSMBusStatus.busy => true
  | _ => false

/-- STATUS_ERROR_NON_RECOVERABLE from the source (lines 96 to 98). -/
def statusNonRecoverable : IOSMBusStatus → Bool
  | IOSMBusStatus.hostUnsupportedProtocol => true
  | IOSMBusStatus.pecError => true
  | _ => false

/-- Bus read protocol of a transaction. -/
inductive SMBusProtocol where
  | readWord
  | readBlock
deriving DecidableEq, Repr

/-- Machine path chosen per poll trigger (source lines 35 to 38). -/
inductive MachinePath where
  | existingBattery
  | newBattery
deriving DecidableEq, Repr

/-- Error kinds of logReadError calls, one constructor per error string
defined at source lines 59 to 63. -/
inductive ErrKind where
  | retryAttemptsExceeded
  | overallTimeoutExpired
  | zeroCapacity
  | permanentFailure
  | nonRecoverableStatus
deriving DecidableEq, Repr

/- Register command codes and device addresses. Modelled from the spec: they
come from AppleSmartBattery.h / AppleSmartBatteryManager.h, headers that are
not among the sources; the concrete values follow the Smart Battery System
standard command set, and the machine only depends on their distinctness and
on the cell voltage block being consecutive codes (the source computes
the next cell voltage command as next_state - 1). -/

def kSMBusManagerAddr : Nat := 0x0a
def kSMBusBatteryAddr : Nat := 0x0b

def kMStateCmd : Nat := 0x01
def kMStateContCmd : Nat := 0x02
def kBTemperatureCmd : Nat := 0x08
def kBVoltageCmd : Nat := 0x09
def kBCurrentCmd : Nat := 0x0a
def kBAverageCurrentCmd : Nat := 0x0b
def kBMaxErrorCmd : Nat := 0x0c
def kBRemainingCapacityCmd : Nat := 0x0f
def kBFullChargeCapacityCmd : Nat := 0x10
def kBAverageTimeToEmptyCmd : Nat := 0x12
def kBAverageTimeToFullCmd : Nat := 0x13
def kBBatteryStatusCmd : Nat := 0x16
def kBCycleCountCmd : Nat := 0x17
def kBDesignCapacityCmd : Nat := 0x18
def kBManufactureDateCmd : Nat := 0x1b
def kBSerialNumberCmd : Nat := 0x1c
def kBManufactureNameCmd : Nat := 0x20
def kBDeviceNameCmd : Nat := 0x21
def kBReadCellVoltage4Cmd : Nat := 0x3c
def kBReadCellVoltage3Cmd : Nat := 0x3d
def kBReadCellVoltage2Cmd : Nat := 0x3e
def kBReadCellVoltage1Cmd : Nat := 0x3f

/- Bitfield masks of the manager state and battery status words. Modelled
from the spec: defined in the headers absent from the sources; the machine
only depends on each mask designating a fixed bit and on the two terminate
alarm bits being distinct. -/

def kMACPresentBit : Nat := 0x0001
def kMPowerNotGoodBit : Nat := 0x0002
def kMPresentBatt_A_Bit : Nat := 0x0004
def kMChargingBatt_A_Bit : Nat := 0x0008
def kBFullyDischargedStatusBit : Nat := 0x0010
def kBFullyChargedStatusBit : Nat := 0x0020
def kBTerminateDischargeAlarmBit : Nat := 0x0800
def kBTerminateChargeAlarmBit : Nat := 0x4000

/- Tunable constants from the source (lines 41 to 79). -/

def kRetryAttempts : Nat := 5
def kInitialPollCountdown : Nat := 5
def kIncompleteReadRetryMax : Nat := 10
def kBatteryReadAllTimeout : Nat := 10000
def kDefaultPollInterval : Nat := 0
def kQuickPollInterval : Nat := 1

/-- Delay table, microseconds, indexed by the consecutive retry count
(source lines 78 to 79). -/
def microSecDelayTable : List Nat := [10, 100, 1000, 10000, 250000]

/-- Initial contents of milliSecPollingTable (source lines 68 to 72); the
table lives in the machine state because setPollingInterval mutates entry 0. -/
def milliSecPollingTableInit : List Nat := [30000, 1000]

/-- One SMBus transaction as seen by the completion handler: the request
fields set by readWordAsync / readBlockAsync plus the completion status and
received bytes (receiveData holds uint8 values; word decodes mask to a byte). -/
structure IOSMBusTransaction where
  protocol : SMBusProtocol
  address : Nat
  command : Nat
  status : IOSMBusStatus
  receiveData : List Nat
  receiveDataCount : Nat
deriving DecidableEq

/-- The 16 bit little endian word of a transaction:
(receiveData[1] << 8) | receiveData[0], with the uint8 type of the buffer
modelled by reducing each byte mod 256. -/
def word16 (t : IOSMBusTransaction) : Nat :=
  Nat.lor (Nat.shiftLeft (t.receiveData.getD 1 0 % 256) 8) (t.receiveData.getD 0 0 % 256)

/-- Reinterpret a 16 bit unsigned word as int16_t, as the int16_t casts in
the source do. -/
def toSigned16 (w : Nat) : Int :=
  if w % 65536 < 32768 then (w % 65536 : Int) else (w % 65536 : Int) - 65536

/-- Externally visible side effects of one handler invocation, in program
order: bus reads issued, timers armed and cancelled, thread delays, log
records, snapshot publication, and the notifications sent to other kernel
objects. -/
inductive Event where
  | readWord (address : Nat) (command : Nat)
  | readBlock (address : Nat) (command : Nat)
  | delayMicro (usec : Nat)
  | sleepMilli (msec : Nat)
  | logError (kind : ErrKind)
  | lastReadErrorProps (status : IOSMBusStatus) (command : Nat)
  | setPollTimerMS (msec : Nat)
  | cancelPollTimer
  | setReadAllTimerMS (msec : Nat)
  | cancelReadAllTimer
  | updateStatus
  | rebuildLegacy
  | acNotify (connected : Bool)
  | handleFullDischarge
  | unexpectedState (state : Nat)
deriving DecidableEq, Repr

/-- The AppleSmartBattery instance fields touched by the polling machine,
together with the published IOPMPowerSource properties (the setters
setCurrentCapacity, setMaxCapacity, ... of the superclass become fields whose
names end in Prop). -/
structure BState where
  fPollingInterval : Nat
  fPollingOverridden : Bool
  fPollingNow : Bool
  fCancelPolling : Bool
  fRetryAttempts : Nat
  fFullyDischarged : Bool
  fFullyCharged : Bool
  fBatteryPresent : Bool
  fACConnected : Bool
  fAvgCurrent : Int
  fInflowDisabled : Bool
  fChargeInhibited : Bool
  fRebootPolling : Bool
  fCellVoltages : Option (List Nat)
  fIncompleteReadRetries : Nat
  fInitialPollCountdown : Nat
  fMachinePath : MachinePath
  fStalledByUserClient : Bool
  fRemainingCapacity : Nat
  fFullChargeCapacity : Nat
  msPollingTable : List Nat
  extConnected : Bool
  extChargeCapable : Bool
  battInstalled : Bool
  chargingNow : Bool
  fullyChargedProp : Bool
  currentCapacityProp : Nat
  maxCapacityProp : Nat
  timeRemainingProp : Nat
  amperageProp : Int
  voltageProp : Nat
  cycleCountProp : Nat
  maxErrProp : Nat
  avgTimeToEmptyProp : Nat
  avgTimeToFullProp : Nat
  manufactureDateProp : Nat
  designCapacityProp : Nat
  temperatureProp : Nat
  realCurrentProp : Int
  adapterInfoProp : Nat
  locationProp : Nat
  manufacturerProp : Option (List Nat)
  deviceNameProp : Option (List Nat)
  serialProp : Option Nat
  cellVoltagesProp : Option (List Nat)
  quickPollProp : Option Bool
  permanentFailureProp : Bool
deriving DecidableEq

/-- The field values AppleSmartBattery::start establishes before the first
poll (source lines 189 to 212 with no debug override), used as the base point
of the concrete evaluations below. -/
def baseState : BState where
  fPollingInterval := kDefaultPollInterval
  fPollingOverridden := false
  fPollingNow := false
  fCancelPolling := false
  fRetryAttempts := 0
  fFullyDischarged := false
  fFullyCharged := false
  fBatteryPresent := false
  fACConnected := false
  fAvgCurrent := 0
  fInflowDisabled := false
  fChargeInhibited := false
  fRebootPolling := false
  fCellVoltages := none
  fIncompleteReadRetries := kIncompleteReadRetryMax
  fInitialPollCountdown := kInitialPollCountdown
  fMachinePath := MachinePath.newBattery
  fStalledByUserClient := false
  fRemainingCapacity := 0
  fFullChargeCapacity := 0
  msPollingTable := milliSecPollingTableInit
  extConnected := false
  extChargeCapable := false
  battInstalled := false
  chargingNow := false
  fullyChargedProp := false
  currentCapacityProp := 0
  maxCapacityProp := 0
  timeRemainingProp := 0
  amperageProp := 0
  voltageProp := 0
  cycleCountProp := 0
  maxErrProp := 0
  avgTimeToEmptyProp := 0
  avgTimeToFullProp := 0
  manufactureDateProp := 0
  designCapacityProp := 0
  temperatureProp := 0
  realCurrentProp := 0
  adapterInfoProp := 0
  locationProp := 0
  manufacturerProp := none
  deviceNameProp := none
  serialProp := none
  cellVoltagesProp := none
  quickPollProp := none
  permanentFailureProp := false

/-- The state 0 branch of the transactionCompletion switch (source lines
612 to 627): cancel the poll timer, mark polling active, arm the overall read
timeout, and issue the first read. -/
def startSequence (s : BState) : BState × List Event :=
  ({ s with fCancelPolling := false, fPollingNow := true },
   [Event.cancelPollTimer, Event.cancelReadAllTimer,
    Event.setReadAllTimerMS kBatteryReadAllTimeout,
    Event.readWord kSMBusManagerAddr kMStateContCmd])

/-- AppleSmartBattery::clearBatteryState (source lines 1267 to 1303). Note
the internal fRemainingCapacity and fFullChargeCapacity fields are not among
those the source resets here. -/
def clearBatteryState (do_update : Bool) (s : BState) : BState × List Event :=
  let s := { s with
    fRetryAttempts := 0
    fFullyDischarged := false
    fFullyCharged := false
    fBatteryPresent := false
    fACConnected := false
    fAvgCurrent := 0
    battInstalled := false
    chargingNow := false
    currentCapacityProp := 0
    maxCapacityProp := 0
    timeRemainingProp := 0
    amperageProp := 0
    voltageProp := 0
    cycleCountProp := 0
    adapterInfoProp := 0
    locationProp := 0
    manufacturerProp := none
    serialProp := none
    permanentFailureProp := false }
  (s, Event.rebuildLegacy :: (if do_update then [Event.updateStatus] else []))

/-- AppleSmartBattery::handleBatteryRemoved (source lines 332 to 345). -/
def handleBatteryRemoved (s : BState) : BState × List Event :=
  if s.fPollingNow then
    let r := clearBatteryState true { s with fCancelPolling := true }
    (r.1, Event.cancelPollTimer :: Event.cancelReadAllTimer :: r.2)
  else
    clearBatteryState true s

/-- transactionCompletion invoked as transactionCompletion((void*)0, NULL)
from pollBatteryState: the cancel flag is cleared but does not abort (the
transaction is NULL), the reboot flag is consumed, and the switch runs its
state 0 case (source lines 458 to 477 and 612 to 627). -/
def startFromNull (s : BState) : BState × List Event :=
  let s := if s.fCancelPolling then { s with fCancelPolling := false } else s
  startSequence { s with fRebootPolling := false }

/-- AppleSmartBattery::pollBatteryState (source lines 299 to 322): no bus
activity when stalled by a user client; records the requested machine path;
starts the state machine at state 0 when idle, otherwise only flags an
in-flight sequence for restart at its next transaction boundary. -/
def pollBatteryState (path : MachinePath) (s : BState) : BState × List Event :=
  if s.fStalledByUserClient then (s, [])
  else
    let s := { s with fMachinePath := path }
    if !s.fPollingNow then startFromNull s
    else ({ s with fRebootPolling := true }, [])

/-- The state dispatch switch of transactionCompletion (source lines 610 to
1261), one branch per register read state. -/
def dispatch (st : Nat) (t : IOSMBusTransaction) (s : BState) : BState × List Event :=
  let status := t.status
  let w := word16 t
  if st = 0 then
    startSequence s
  else if st = kMStateContCmd then
    let r :=
      if status = IOSMBusStatus.ok then
        let newAC : Bool := !s.fInflowDisabled && decide (Nat.land w kMACPresentBit ≠ 0)
        let notify := if newAC ≠ s.fACConnected then [Event.acNotify newAC] else []
        ({ s with fACConnected := newAC, extConnected := newAC,
                  extChargeCapable := decide (Nat.land w kMPowerNotGoodBit = 0) }, notify)
      else
        ({ s with fACConnected := false, extConnected := true,
                  extChargeCapable := false }, ([] : List Event))
    (r.1, r.2 ++ [Event.readWord kSMBusManagerAddr kMStateCmd])
  else if st = kMStateCmd then
    let s1 :=
      if status = IOSMBusStatus.ok then
        let present : Bool := decide (Nat.land w kMPresentBatt_A_Bit ≠ 0)
        { s with fBatteryPresent := present, battInstalled := present,
                 chargingNow := !s.fChargeInhibited && decide (Nat.land w kMChargingBatt_A_Bit ≠ 0) }
      else
        { s with fBatteryPresent := false, battInstalled := false, chargingNow := false }
    if !s1.fBatteryPresent then
      let r := clearBatteryState true { s1 with fPollingNow := false }
      (r.1, r.2)
    else
      (s1, [Event.readWord kSMBusBatteryAddr kBBatteryStatusCmd])
  else if st = kBBatteryStatusCmd then
    let r1 :=
      if status ≠ IOSMBusStatus.ok then
        ({ s with fFullyCharged := false, fFullyDischarged := false }, ([] : List Event))
      else
        let s1 := { s with fFullyCharged := decide (Nat.land w kBFullyChargedStatusBit ≠ 0) }
        let r2 :=
          if Nat.land w kBFullyDischargedStatusBit ≠ 0 then
            if !s1.fFullyDischarged then
              ({ s1 with fFullyDischarged := true }, [Event.handleFullDischarge])
            else (s1, ([] : List Event))
          else ({ s1 with fFullyDischarged := false }, ([] : List Event))
        let alarmBits := Nat.lor kBTerminateDischargeAlarmBit kBTerminateChargeAlarmBit
        if Nat.land w alarmBits = alarmBits then
          let s3 := { r2.1 with permanentFailureProp := true, fPollingNow := false }
          let r3 := handleBatteryRemoved s3
          (r3.1, r2.2 ++ [Event.logError ErrKind.permanentFailure,
                          Event.cancelReadAllTimer] ++ r3.2)
        else r2
    let s2 := { r1.1 with fullyChargedProp := r1.1.fFullyCharged }
    if s2.fMachinePath = MachinePath.newBattery then
      (s2, r1.2 ++ [Event.readBlock kSMBusBatteryAddr kBManufactureNameCmd])
    else
      (s2, r1.2 ++ [Event.readWord kSMBusBatteryAddr kBRemainingCapacityCmd])
  else if st = kBManufactureNameCmd then
    let s1 :=
      if status = IOSMBusStatus.ok then
        if t.receiveDataCount ≠ 0 then
          { s with manufacturerProp := some (t.receiveData.take t.receiveDataCount) }
        else s
      else { s with manufacturerProp := none }
    (s1, [Event.readWord kSMBusBatteryAddr kBManufactureDateCmd])
  else if st = kBManufactureDateCmd then
    let s1 :=
      if status = IOSMBusStatus.ok then { s with manufactureDateProp := w }
      else { s with manufactureDateProp := 0 }
    (s1, [Event.readBlock kSMBusBatteryAddr kBDeviceNameCmd])
  else if st = kBDeviceNameCmd then
    let s1 :=
      if status = IOSMBusStatus.ok then
        if t.receiveDataCount ≠ 0 then
          { s with deviceNameProp := some (t.receiveData.take t.receiveDataCount) }
        else s
      else { s with deviceNameProp := none }
    (s1, [Event.readWord kSMBusBatteryAddr kBSerialNumberCmd])
  else if st = kBSerialNumberCmd then
    let s1 :=
      if status = IOSMBusStatus.ok then { s with serialProp := some w }
      else { s with serialProp := none }
    (s1, [Event.readWord kSMBusBatteryAddr kBDesignCapacityCmd])
  else if st = kBDesignCapacityCmd then
    let s1 :=
      if status = IOSMBusStatus.ok then { s with designCapacityProp := w }
      else { s with designCapacityProp := 0 }
    (s1, [Event.readWord kSMBusBatteryAddr kBRemainingCapacityCmd])
  else if st = kBRemainingCapacityCmd then
    let s1 :=
      if status = IOSMBusStatus.ok then
        { s with fRemainingCapacity := w, currentCapacityProp := w }
      else
        { s with fRemainingCapacity := 0, currentCapacityProp := 0 }
    let evs := if s1.fRemainingCapacity = 0 then [Event.logError ErrKind.zeroCapacity] else []
    (s1, evs ++ [Event.readWord kSMBusBatteryAddr kBFullChargeCapacityCmd])
  else if st = kBFullChargeCapacityCmd then
    let s1 :=
      if status = IOSMBusStatus.ok then
        let sa := { s with fFullChargeCapacity := w, maxCapacityProp := w }
        if !sa.fPollingOverridden ∧ sa.fFullChargeCapacity ≠ 0 then
          if 100 * sa.fRemainingCapacity / sa.fFullChargeCapacity < 5 ∧ sa.fACConnected then
            { sa with quickPollProp := some true, fPollingInterval := kQuickPollInterval }
          else
            { sa with quickPollProp := some false, fPollingInterval := kDefaultPollInterval }
        else sa
      else
        -- source line 985 reads fFullChargeCapacity == 0; a comparison, not an
        -- assignment, so the internal field keeps its prior value on failure
        { s with maxCapacityProp := 0 }
    let evs := if s1.fFullChargeCapacity = 0 then [Event.logError ErrKind.zeroCapacity] else []
    (s1, evs ++ [Event.readWord kSMBusBatteryAddr kBAverageCurrentCmd])
  else if st = kBAverageCurrentCmd then
    let s1 :=
      if status = IOSMBusStatus.ok then
        { s with amperageProp := toSigned16 w, fAvgCurrent := toSigned16 w }
      else
        { s with fAvgCurrent := 0, amperageProp := 0, timeRemainingProp := 0 }
    (s1, [Event.readWord kSMBusBatteryAddr kBVoltageCmd])
  else if st = kBVoltageCmd then
    let s1 :=
      if status = IOSMBusStatus.ok then { s with voltageProp := w }
      else { s with voltageProp := 0 }
    (s1, [Event.readWord kSMBusBatteryAddr kBMaxErrorCmd])
  else if st = kBMaxErrorCmd then
    let s1 :=
      if status = IOSMBusStatus.ok then { s with maxErrProp := w }
      else { s with maxErrProp := 0 }
    (s1, [Event.readWord kSMBusBatteryAddr kBCycleCountCmd])
  else if st = kBCycleCountCmd then
    let s1 :=
      if status = IOSMBusStatus.ok then { s with cycleCountProp := w }
      else { s with cycleCountProp := 0 }
    (s1, [Event.readWord kSMBusBatteryAddr kBAverageTimeToEmptyCmd])
  else if st = kBAverageTimeToEmptyCmd then
    let s1 :=
      if status = IOSMBusStatus.ok then
        let sa := { s with avgTimeToEmptyProp := w }
        if sa.fAvgCurrent < 0 then { sa with timeRemainingProp := w } else sa
      else
        { s with timeRemainingProp := 0, avgTimeToEmptyProp := 0 }
    (s1, [Event.readWord kSMBusBatteryAddr kBAverageTimeToFullCmd])
  else if st = kBAverageTimeToFullCmd then
    let s1 :=
      if status = IOSMBusStatus.ok then
        let sa := { s with avgTimeToFullProp := w }
        if sa.fAvgCurrent > 0 then { sa with timeRemainingProp := w } else sa
      else
        { s with timeRemainingProp := 0, avgTimeToFullProp := 0 }
    (s1, [Event.readWord kSMBusBatteryAddr kBTemperatureCmd])
  else if st = kBTemperatureCmd then
    let s1 :=
      if status = IOSMBusStatus.ok then { s with temperatureProp := w }
      else { s with temperatureProp := 0 }
    (s1, [Event.readWord kSMBusBatteryAddr kBReadCellVoltage1Cmd])
  else if st = kBReadCellVoltage4Cmd ∨ st = kBReadCellVoltage3Cmd
        ∨ st = kBReadCellVoltage2Cmd ∨ st = kBReadCellVoltage1Cmd then
    let v := if status = IOSMBusStatus.ok then w else 0
    let s1 := if st = kBReadCellVoltage1Cmd then { s with fCellVoltages := some [] } else s
    let s2 :=
      match s1.fCellVoltages with
      | some l => { s1 with fCellVoltages := some (l ++ [v]) }
      | none => s1
    if st = kBReadCellVoltage4Cmd then
      let s3 :=
        match s2.fCellVoltages with
        | some l => { s2 with cellVoltagesProp := some l, fCellVoltages := none }
        | none => { s2 with cellVoltagesProp := none }
      (s3, [Event.readWord kSMBusBatteryAddr kBCurrentCmd])
    else
      (s2, [Event.readWord kSMBusBatteryAddr (st - 1)])
  else if st = kBCurrentCmd then
    let s1 :=
      if status = IOSMBusStatus.ok then { s with realCurrentProp := toSigned16 w }
      else { s with realCurrentProp := 0 }
    let evs := [Event.cancelReadAllTimer, Event.rebuildLegacy, Event.updateStatus]
    let s2 := { s1 with fPollingNow := false }
    if s2.fPollingOverridden ∧ s2.fPollingInterval = 0 then
      let r := pollBatteryState MachinePath.newBattery s2
      (r.1, evs ++ r.2)
    else if s2.fInitialPollCountdown > 0 ∨ s2.fACConnected = false
          ∨ (s2.fFullyCharged = false ∧ s2.fBatteryPresent = true)
          ∨ s2.fPollingOverridden then
      let s3 :=
        if s2.fInitialPollCountdown > 0 then
          { s2 with fInitialPollCountdown := s2.fInitialPollCountdown - 1 }
        else s2
      if !s3.fPollingOverridden then
        (s3, evs ++ [Event.setPollTimerMS (s3.msPollingTable.getD s3.fPollingInterval 0)])
      else
        (s3, evs ++ [Event.setPollTimerMS (1000 * s3.fPollingInterval)])
    else
      (s2, evs)
  else
    (s, [Event.unexpectedState st])

/-- The retry classification section of transactionCompletion (source lines
478 to 605): status classification, the eventual success resets of the retry
counter, the absurd zero capacity re-read policy, the give up branch once
kRetryAttempts consecutive retries are exhausted, and the delayed re-issue
of the same address and command; falls through into the state dispatch when
no retry is taken. -/
def retryAndDispatch (ref : Nat) (t : IOSMBusTransaction) (s : BState) :
    BState × List Event :=
  let status := t.status
  let r1 :=
    if statusNeedsRetry status then ((s, ([] : List Event)), true)
    else if statusNonRecoverable status then
      ((s, [Event.logError ErrKind.nonRecoverableStatus]), false)
    else ((s, ([] : List Event)), false)
  let s1 := r1.1.1
  -- eventual success after some number of status retries
  let r2 :=
    if status = IOSMBusStatus.ok ∧ s1.fRetryAttempts ≠ 0 then
      ({ s1 with fRetryAttempts := 0 }, false)
    else (s1, r1.2)
  let s2 := r2.1
  let d0 := t.receiveData.getD 0 0 % 256
  let d1 := t.receiveData.getD 1 0 % 256
  -- absurd zero value re-read policy and its eventual success reset
  let r3 :=
    if status = IOSMBusStatus.ok then
      let retryZero :=
        if (t.command = kBFullChargeCapacityCmd ∨ t.command = kBDesignCapacityCmd
            ∨ (t.command = kBRemainingCapacityCmd ∧ s2.fFullyDischarged = false))
           ∧ d1 = 0 ∧ d0 = 0
        then true else r2.2
      if (t.command = kBRemainingCapacityCmd ∨ t.command = kBDesignCapacityCmd
          ∨ t.command = kBFullChargeCapacityCmd)
         ∧ (d1 ≠ 0 ∨ d0 ≠ 0) ∧ s2.fRetryAttempts ≠ 0
      then ({ s2 with fRetryAttempts := 0 }, false)
      else (s2, retryZero)
    else (s2, r2.2)
  let s3 := r3.1
  if r3.2 ∧ s3.fRetryAttempts = kRetryAttempts then
    -- too many retries: give up and fall through to the state dispatch
    let s4 := { s3 with fRetryAttempts := 0 }
    let r := dispatch ref t s4
    (r.1, r1.1.2 ++ [Event.lastReadErrorProps status t.command,
                     Event.logError ErrKind.retryAttemptsExceeded] ++ r.2)
  else if r3.2 then
    -- delay per the table, then re-issue the same transaction as a word read
    let delayFor := microSecDelayTable.getD s3.fRetryAttempts 0
    let delayEvs :=
      if delayFor ≠ 0 then
        if delayFor < 1000 then [Event.delayMicro delayFor]
        else [Event.sleepMilli (delayFor / 1000)]
      else []
    ({ s3 with fRetryAttempts := s3.fRetryAttempts + 1 },
     r1.1.2 ++ delayEvs ++ [Event.readWord t.address t.command])
  else
    let r := dispatch ref t s3
    (r.1, r1.1.2 ++ r.2)

/-- AppleSmartBattery::transactionCompletion (source lines 438 to 1264).
The ref argument carries the state the completed read belongs to (the source
passes the command code as the void* ref); a none transaction restarts the
machine from state 0. -/
def transactionCompletion (ref : Nat) (t : Option IOSMBusTransaction) (s : BState) :
    BState × List Event :=
  if s.fCancelPolling then
    match t with
    | some _ => ({ s with fCancelPolling := false, fPollingNow := false }, [])
    | none => startFromNull s
  else
    match t with
    | none => startFromNull s
    | some txn =>
      if s.fRebootPolling then startSequence { s with fRebootPolling := false }
      else retryAndDispatch ref txn s

/-- AppleSmartBattery::incompleteReadTimeOut (source lines 414 to 429): the
overall 10 second read timeout fired; restart polling from scratch on the
new battery path unless the bounded stall restart budget is exhausted. -/
def incompleteReadTimeOut (s : BState) : BState × List Event :=
  let evs := [Event.logError ErrKind.overallTimeoutExpired]
  if 0 < s.fIncompleteReadRetries then
    let r := pollBatteryState MachinePath.newBattery
      { s with fIncompleteReadRetries := s.fIncompleteReadRetries - 1 }
    (r.1, evs ++ r.2)
  else
    (s, evs)

/-- AppleSmartBattery::pollingTimeOut (source lines 393 to 400). -/
def pollingTimeOut (s : BState) : BState × List Event :=
  if !s.fPollingNow then pollBatteryState MachinePath.existingBattery s
  else (s, [])

/-- First bus read issued in an event list, if any (each handler invocation
issues at most one). -/
def firstRead : List Event → Option (SMBusProtocol × Nat × Nat)
  | [] => none
  | Event.readWord a c :: _ => some (SMBusProtocol.readWord, a, c)
  | Event.readBlock a c :: _ => some (SMBusProtocol.readBlock, a, c)
  | _ :: rest => firstRead rest

/-- Closed loop driver: feed every read the machine issues back into
transactionCompletion with the response the oracle gives for that command
(status, byte 0, byte 1, receive count), until the machine stops issuing
reads or fuel runs out. -/
def drive (oracle : Nat → IOSMBusStatus × Nat × Nat × Nat) :
    Nat → BState → List Event → BState
  | 0, s, _ => s
  | Nat.succ n, s, evs =>
    match firstRead evs with
    | none => s
    | some (p, a, c) =>
      let resp := oracle c
      let t : IOSMBusTransaction :=
        { protocol := p, address := a, command := c, status := resp.1,
          receiveData := [resp.2.1, resp.2.2.1], receiveDataCount := resp.2.2.2 }
      let r := transactionCompletion c (some t) s
      drive oracle n r.1 r.2

/-- True of the events that arm the regular poll timer. -/
def isPollTimerArm : Event → Bool
  | Event.setPollTimerMS _ => true
  | _ => false

/-- True of the events that issue a bus read. -/
def isReadIssue : Event → Bool
  | Event.readWord _ _ => true
  | Event.readBlock _ _ => true
  | _ => false

/-- An event list schedules no further poll: it neither arms the poll timer
nor issues an immediate read. -/
def noRepoll (evs : List Event) : Bool :=
  evs.all (fun e => !isPollTimerArm e && !isReadIssue e)

/-- One stall of the overall read timeout, state part. -/
def stallState (s : BState) : BState := (incompleteReadTimeOut s).1

/-- A transport that answers every read with status ok and the word 100
(bytes 100, 0), which satisfies the presence bit, carries no alarm bits, and
is a nonzero capacity. -/
def okOracle : Nat → IOSMBusStatus × Nat × Nat × Nat :=
  fun _ => (IOSMBusStatus.ok, 100, 0, 2)

/-- Start state for the complete sequence evaluation: three stalls have
already consumed part of the stall restart budget. -/
def c7Start : BState := { baseState with fIncompleteReadRetries := 7 }

/-- One complete successful polling sequence driven end to end against
okOracle, starting on the new battery path. -/
def c7Run : BState :=
  let p := pollBatteryState MachinePath.newBattery c7Start
  drive okOracle 30 p.1 p.2

/-- Failing full charge capacity read for the stale field evaluation: a
definitive failure, the retry budget already exhausted. -/
def c1State : BState := { baseState with
  fPollingNow := true, fBatteryPresent := true,
  fRemainingCapacity := 4000, fFullChargeCapacity := 5000,
  currentCapacityProp := 4000, maxCapacityProp := 5000,
  fRetryAttempts := kRetryAttempts }

def c1FccTxn : IOSMBusTransaction :=
  { protocol := SMBusProtocol.readWord, address := kSMBusBatteryAddr,
    command := kBFullChargeCapacityCmd, status := IOSMBusStatus.deviceError,
    receiveData := [], receiveDataCount := 0 }

def c1RcTxn : IOSMBusTransaction :=
  { protocol := SMBusProtocol.readWord, address := kSMBusBatteryAddr,
    command := kBRemainingCapacityCmd, status := IOSMBusStatus.deviceError,
    receiveData := [], receiveDataCount := 0 }

/-- Mid sequence state with a populated snapshot, about to complete the
battery status read. -/
def c2State : BState := { baseState with
  fPollingNow := true, fBatteryPresent := true, battInstalled := true,
  fACConnected := true, fMachinePath := MachinePath.newBattery,
  currentCapacityProp := 3000, maxCapacityProp := 5000 }

/-- Battery status read completing ok with both terminate alarm bits set
(word 0x4800 = terminate charge 0x4000 plus terminate discharge 0x0800). -/
def c2Txn : IOSMBusTransaction :=
  { protocol := SMBusProtocol.readWord, address := kSMBusBatteryAddr,
    command := kBBatteryStatusCmd, status := IOSMBusStatus.ok,
    receiveData := [0x00, 0x48], receiveDataCount := 2 }

/-- A successful read returning the 16 bit value zero for the given command. -/
def c4ZeroTxn (c : Nat) : IOSMBusTransaction :=
  { protocol := SMBusProtocol.readWord, address := kSMBusBatteryAddr,
    command := c, status := IOSMBusStatus.ok,
    receiveData := [0, 0], receiveDataCount := 2 }

def c4State : BState := { baseState with fPollingNow := true }

/-- State in which the battery is charging (positive average current), the
remaining to full charge ratio is below five percent, and AC is connected. -/
def c5State : BState := { baseState with
  fPollingNow := true, fBatteryPresent := true, fACConnected := true,
  fRemainingCapacity := 2, fAvgCurrent := 50 }

/-- Full charge capacity read completing ok with value 100. -/
def c5Txn : IOSMBusTransaction :=
  { protocol := SMBusProtocol.readWord, address := kSMBusBatteryAddr,
    command := kBFullChargeCapacityCmd, status := IOSMBusStatus.ok,
    receiveData := [100, 0], receiveDataCount := 2 }

def c6State : BState := { baseState with fPollingNow := true }

/-- An in-flight voltage read completing after a restart was requested. -/
def c6Txn : IOSMBusTransaction :=
  { protocol := SMBusProtocol.readWord, address := kSMBusBatteryAddr,
    command := kBVoltageCmd, status := IOSMBusStatus.ok,
    receiveData := [0, 40], receiveDataCount := 2 }

def c10State : BState := { baseState with
  fPollingNow := true, fACConnected := true, extConnected := false }

/-- Controller status read completing with the retryable busy status. -/
def c10Txn : IOSMBusTransaction :=
  { protocol := SMBusProtocol.readWord, address := kSMBusManagerAddr,
    command := kMStateContCmd, status := IOSMBusStatus.busy,
    receiveData := [], receiveDataCount := 0 }

def c3WitnessTxn : IOSMBusTransaction :=
  { protocol := SMBusProtocol.readWord, address := kSMBusBatteryAddr,
    command := kBVoltageCmd, status := IOSMBusStatus.busy,
    receiveData := [], receiveDataCount := 0 }

def c9WitnessTxn : IOSMBusTransaction :=
  { protocol := SMBusProtocol.readBlock, address := kSMBusBatteryAddr,
    command := kBManufactureNameCmd, status := IOSMBusStatus.timeout,
    receiveData := [], receiveDataCount := 0 }

def c8WitnessState : BState := { baseState with
  fPollingNow := true, fBatteryPresent := true, fACConnected := true,
  fFullyCharged := true, fInitialPollCountdown := 0 }

def c8WitnessTxn : IOSMBusTransaction :=
  { protocol := SMBusProtocol.readWord, address := kSMBusBatteryAddr,
    command := kBCurrentCmd, status := IOSMBusStatus.ok,
    receiveData := [10, 0], receiveDataCount := 2 }

def c5WitnessState : BState := { baseState with
  fPollingNow := true, fBatteryPresent := true, fACConnected := true,
  fRemainingCapacity := 50 }

def c7WitnessState : BState := { baseState with
  fPollingNow := true, fIncompleteReadRetries := 4 }

def c10WitnessTxn : IOSMBusTransaction :=
  { protocol := SMBusProtocol.readWord, address := kSMBusManagerAddr,
    command := kMStateContCmd, status := IOSMBusStatus.pecError,
    receiveData := [], receiveDataCount := 0 }

/- ------------------------------------------------------------------ -/
/- Helper lemmas shared between the claim theorems                     -/
/- ------------------------------------------------------------------ -/

lemma statusNeedsRetry_classify (st : IOSMBusStatus) (h : statusNeedsRetry st = true) :
    st ≠ IOSMBusStatus.ok ∧ statusNonRecoverable st = false := by
  revert h; cases st <;> decide

lemma statusNonRecoverable_classify (st : IOSMBusStatus) (h : statusNonRecoverable st = true) :
    st ≠ IOSMBusStatus.ok ∧ statusNeedsRetry st = false := by
  revert h; cases st <;> decide

lemma delay_table_pos (i : Nat) (h : i < kRetryAttempts) :
    microSecDelayTable.getD i 0 ≠ 0 := by
  have h5 : i < 5 := h
  interval_cases i <;> decide

/-- A completion with a retryable status and retry budget left delays per the
table and re-issues the same address and command as a word read. -/
lemma retry_step (ref : Nat) (t : IOSMBusTransaction) (s : BState)
    (hc : s.fCancelPolling = false) (hb : s.fRebootPolling = false)
    (hs : statusNeedsRetry t.status = true) (hn : s.fRetryAttempts < kRetryAttempts) :
    transactionCompletion ref (some t) s =
      ({ s with fRetryAttempts := s.fRetryAttempts + 1 },
       (if microSecDelayTable.getD s.fRetryAttempts 0 < 1000 then
          [Event.delayMicro (microSecDelayTable.getD s.fRetryAttempts 0)]
        else [Event.sleepMilli (microSecDelayTable.getD s.fRetryAttempts 0 / 1000)]) ++
       [Event.readWord t.address t.command]) := by
  obtain ⟨hne, hnr⟩ := statusNeedsRetry_classify t.status hs
  have h5 : s.fRetryAttempts ≠ kRetryAttempts := Nat.ne_of_lt hn
  have hd : microSecDelayTable.getD s.fRetryAttempts 0 ≠ 0 := delay_table_pos _ hn
  simp [transactionCompletion, retryAndDispatch, hc, hb, hs, hne, hnr, h5, hd]
  intro h
  simp [List.getD] at hd
  exact absurd h hd

/-- A completion with a retryable status and the retry budget exhausted logs
the give up and falls through to the state dispatch with the retry counter
reset. -/
lemma giveup_step (ref : Nat) (t : IOSMBusTransaction) (s : BState)
    (hc : s.fCancelPolling = false) (hb : s.fRebootPolling = false)
    (hs : statusNeedsRetry t.status = true) (h5 : s.fRetryAttempts = kRetryAttempts) :
    transactionCompletion ref (some t) s =
      ((dispatch ref t { s with fRetryAttempts := 0 }).1,
       Event.lastReadErrorProps t.status t.command ::
         Event.logError ErrKind.retryAttemptsExceeded ::
         (dispatch ref t { s with fRetryAttempts := 0 }).2) := by
  obtain ⟨hne, hnr⟩ := statusNeedsRetry_classify t.status hs
  simp [transactionCompletion, retryAndDispatch, hc, hb, hs, hne, hnr, h5]

/-- A completion with a non recoverable status logs it and falls through to
the state dispatch without touching the retry counter. -/
lemma nonrec_step (ref : Nat) (t : IOSMBusTransaction) (s : BState)
    (hc : s.fCancelPolling = false) (hb : s.fRebootPolling = false)
    (hnr : statusNonRecoverable t.status = true) :
    transactionCompletion ref (some t) s =
      ((dispatch ref t s).1,
       Event.logError ErrKind.nonRecoverableStatus :: (dispatch ref t s).2) := by
  obtain ⟨hne, hs⟩ := statusNonRecoverable_classify t.status hnr
  simp [transactionCompletion, retryAndDispatch, hc, hb, hs, hne, hnr]

/-- An ok completion with no pending retries for a command outside the three
capacity registers goes straight to the state dispatch. -/
lemma ok_dispatch_nocap (ref : Nat) (t : IOSMBusTransaction) (s : BState)
    (hc : s.fCancelPolling = false) (hb : s.fRebootPolling = false)
    (hok : t.status = IOSMBusStatus.ok) (hr : s.fRetryAttempts = 0)
    (h1 : t.command ≠ kBFullChargeCapacityCmd) (h2 : t.command ≠ kBDesignCapacityCmd)
    (h3 : t.command ≠ kBRemainingCapacityCmd) :
    transactionCompletion ref (some t) s = dispatch ref t s := by
  simp [transactionCompletion, retryAndDispatch, hc, hb, hok, hr, h1, h2, h3,
    statusNeedsRetry, statusNonRecoverable]

/-- An ok completion with no pending retries and a nonzero received word goes
straight to the state dispatch. -/
lemma ok_dispatch_nonzero (ref : Nat) (t : IOSMBusTransaction) (s : BState)
    (hc : s.fCancelPolling = false) (hb : s.fRebootPolling = false)
    (hok : t.status = IOSMBusStatus.ok) (hr : s.fRetryAttempts = 0)
    (hnz : t.receiveData.getD 0 0 % 256 ≠ 0 ∨ t.receiveData.getD 1 0 % 256 ≠ 0) :
    transactionCompletion ref (some t) s = dispatch ref t s := by
  rcases hnz with h | h <;>
    [skip; skip] <;> simp [List.getD] at h <;>
    simp [transactionCompletion, retryAndDispatch, hc, hb, hok, hr, h,
      statusNeedsRetry, statusNonRecoverable, kRetryAttempts]

/-- starting transactionCompletion with a NULL transaction is the state 0
branch with the reboot flag consumed. -/
lemma startFromNull_eq (s : BState) :
    startFromNull s = startSequence { s with fRebootPolling := false } := by
  by_cases h : s.fCancelPolling <;> simp [startFromNull, startSequence, h]

/-- Failure branch of the controller status state. -/
lemma dispatch_mstatecont_fail (t : IOSMBusTransaction) (s : BState)
    (hne : t.status ≠ IOSMBusStatus.ok) :
    dispatch kMStateContCmd t s =
      ({ s with fACConnected := false, extConnected := true, extChargeCapable := false },
       [Event.readWord kSMBusManagerAddr kMStateCmd]) := by
  norm_num [dispatch, hne, kMStateContCmd]

lemma lor_eq_zero {a b : Nat} (h : Nat.lor a b = 0) : a = 0 ∧ b = 0 := by
  have h2 : a ||| b = 0 := h
  constructor
  · apply Nat.eq_of_testBit_eq
    intro i
    have hb := congrArg (fun n => Nat.testBit n i) h2
    simp only [Nat.testBit_lor, Nat.zero_testBit, Bool.or_eq_false_iff] at hb
    simp [hb.1]
  · apply Nat.eq_of_testBit_eq
    intro i
    have hb := congrArg (fun n => Nat.testBit n i) h2
    simp only [Nat.testBit_lor, Nat.zero_testBit, Bool.or_eq_false_iff] at hb
    simp [hb.2]

lemma word16_ne_zero (t : IOSMBusTransaction)
    (hnz : t.receiveData.getD 0 0 % 256 ≠ 0 ∨ t.receiveData.getD 1 0 % 256 ≠ 0) :
    word16 t ≠ 0 := by
  intro h
  obtain ⟨h1, h0⟩ := lor_eq_zero h
  rcases hnz with hz | hz
  · exact hz h0
  · have h3 : t.receiveData.getD 1 0 % 256 * 256 = 0 := by
      simpa [Nat.shiftLeft_eq, Nat.shiftLeft] using h1
    exact hz (by omega)

/- ------------------------------------------------------------------ -/
/- Claim theorems                                                      -/
/- ------------------------------------------------------------------ -/

/-- Claim C1: after a register read definitively fails, remaining capacity
resets to 0 in both the internal field and the published snapshot, but the
internal full charge capacity field keeps its stale prior value (5000 here)
because source line 985 compares instead of assigning; only the published
maximum capacity is reset, and the zero capacity error is not logged since
the stale field is nonzero. This evaluation exhibits the code bug the claim
is about: the claim says the internal field equals 0 after the failure. -/
theorem c1_fcc_failure_leaves_stale_capacity :
    (transactionCompletion kBFullChargeCapacityCmd (some c1FccTxn) c1State).1.fFullChargeCapacity = 5000 ∧
    (transactionCompletion kBFullChargeCapacityCmd (some c1FccTxn) c1State).1.maxCapacityProp = 0 ∧
    Event.logError ErrKind.zeroCapacity ∉
      (transactionCompletion kBFullChargeCapacityCmd (some c1FccTxn) c1State).2 ∧
    (transactionCompletion kBRemainingCapacityCmd (some c1RcTxn) c1State).1.fRemainingCapacity = 0 ∧
    (transactionCompletion kBRemainingCapacityCmd (some c1RcTxn) c1State).1.currentCapacityProp = 0 := by
  decide

/-- Claim C2: a battery status read with both terminate alarm bits set logs
the permanent failure, cancels the overall read timeout, publishes a cleared
battery absent snapshot - and then, contrary to the claim, still issues the
next register read of the sequence (the block read of the manufacturer name
on the new battery path), because the source sets fPollingNow to false
before calling handleBatteryRemoved, which defeats the cancel flag, and the
detection branch does not return. -/
theorem c2_permanent_failure_still_issues_next_read :
    Nat.land (word16 c2Txn) (Nat.lor kBTerminateDischargeAlarmBit kBTerminateChargeAlarmBit)
        = Nat.lor kBTerminateDischargeAlarmBit kBTerminateChargeAlarmBit ∧
    Event.logError ErrKind.permanentFailure ∈
      (transactionCompletion kBBatteryStatusCmd (some c2Txn) c2State).2 ∧
    Event.cancelReadAllTimer ∈ (transactionCompletion kBBatteryStatusCmd (some c2Txn) c2State).2 ∧
    Event.updateStatus ∈ (transactionCompletion kBBatteryStatusCmd (some c2Txn) c2State).2 ∧
    (transactionCompletion kBBatteryStatusCmd (some c2Txn) c2State).1.battInstalled = false ∧
    (transactionCompletion kBBatteryStatusCmd (some c2Txn) c2State).1.currentCapacityProp = 0 ∧
    (transactionCompletion kBBatteryStatusCmd (some c2Txn) c2State).1.maxCapacityProp = 0 ∧
    (transactionCompletion kBBatteryStatusCmd (some c2Txn) c2State).1.chargingNow = false ∧
    (transactionCompletion kBBatteryStatusCmd (some c2Txn) c2State).1.fPollingNow = false ∧
    Event.readBlock kSMBusBatteryAddr kBManufactureNameCmd ∈
      (transactionCompletion kBBatteryStatusCmd (some c2Txn) c2State).2 := by
  decide

/-- Claim C3: a completion with a retryable status delays by the table entry
indexed by the consecutive retry count (10 and 100 microseconds busy wait,
then 1, 10, 250 millisecond sleeps), re-issues the same address and command,
and increments the counter; at retry count 5 it does not retry again but
records the give up, resets the counter to 0, and runs the state dispatch,
which takes the failure path default and issues the next read (shown
concretely for the voltage state: voltage is published as 0 and the max
error read is issued). -/
theorem c3_retry_policy (ref : Nat) (t : IOSMBusTransaction) (s : BState)
    (hc : s.fCancelPolling = false) (hb : s.fRebootPolling = false)
    (hs : statusNeedsRetry t.status = true) :
    (s.fRetryAttempts = 0 → transactionCompletion ref (some t) s =
       ({ s with fRetryAttempts := 1 },
        [Event.delayMicro 10, Event.readWord t.address t.command])) ∧
    (s.fRetryAttempts = 1 → transactionCompletion ref (some t) s =
       ({ s with fRetryAttempts := 2 },
        [Event.delayMicro 100, Event.readWord t.address t.command])) ∧
    (s.fRetryAttempts = 2 → transactionCompletion ref (some t) s =
       ({ s with fRetryAttempts := 3 },
        [Event.sleepMilli 1, Event.readWord t.address t.command])) ∧
    (s.fRetryAttempts = 3 → transactionCompletion ref (some t) s =
       ({ s with fRetryAttempts := 4 },
        [Event.sleepMilli 10, Event.readWord t.address t.command])) ∧
    (s.fRetryAttempts = 4 → transactionCompletion ref (some t) s =
       ({ s with fRetryAttempts := 5 },
        [Event.sleepMilli 250, Event.readWord t.address t.command])) ∧
    (s.fRetryAttempts = kRetryAttempts → transactionCompletion ref (some t) s =
       ((dispatch ref t { s with fRetryAttempts := 0 }).1,
        Event.lastReadErrorProps t.status t.command ::
          Event.logError ErrKind.retryAttemptsExceeded ::
          (dispatch ref t { s with fRetryAttempts := 0 }).2)) ∧
    (s.fRetryAttempts = kRetryAttempts → ref = kBVoltageCmd →
       (transactionCompletion ref (some t) s).1.voltageProp = 0 ∧
       (transactionCompletion ref (some t) s).1.fRetryAttempts = 0 ∧
       (transactionCompletion ref (some t) s).2 =
         [Event.lastReadErrorProps t.status t.command,
          Event.logError ErrKind.retryAttemptsExceeded,
          Event.readWord kSMBusBatteryAddr kBMaxErrorCmd]) := by
  obtain ⟨hne, hnr⟩ := statusNeedsRetry_classify t.status hs
  refine ⟨?_, ?_, ?_, ?_, ?_, ?_, ?_⟩
  case _ =>
    intro h
    rw [retry_step ref t s hc hb hs (by simp [h, kRetryAttempts])]
    rw [h]
    norm_num [microSecDelayTable, List.getD]
  case _ =>
    intro h
    rw [retry_step ref t s hc hb hs (by simp [h, kRetryAttempts])]
    rw [h]
    norm_num [microSecDelayTable, List.getD]
  case _ =>
    intro h
    rw [retry_step ref t s hc hb hs (by simp [h, kRetryAttempts])]
    rw [h]
    norm_num [microSecDelayTable, List.getD]
  case _ =>
    intro h
    rw [retry_step ref t s hc hb hs (by simp [h, kRetryAttempts])]
    rw [h]
    norm_num [microSecDelayTable, List.getD]
  case _ =>
    intro h
    rw [retry_step ref t s hc hb hs (by simp [h, kRetryAttempts])]
    rw [h]
    norm_num [microSecDelayTable, List.getD]
  case _ =>
    intro h
    exact giveup_step ref t s hc hb hs h
  case _ =>
    intro h href
    rw [giveup_step ref t s hc hb hs h]
    subst href
    simp [dispatch, hne, kBVoltageCmd, kMStateContCmd, kMStateCmd, kBBatteryStatusCmd,
      kBManufactureNameCmd, kBManufactureDateCmd, kBDeviceNameCmd, kBSerialNumberCmd,
      kBDesignCapacityCmd, kBRemainingCapacityCmd, kBFullChargeCapacityCmd,
      kBAverageCurrentCmd, kBMaxErrorCmd]

/-- Witness for claim C3 at a concrete input: a busy voltage read with no
retries pending is retried after the 10 microsecond delay. -/
theorem c3_retry_policy_witness :
    statusNeedsRetry c3WitnessTxn.status = true ∧
    transactionCompletion kBVoltageCmd (some c3WitnessTxn) baseState =
      ({ baseState with fRetryAttempts := 1 },
       [Event.delayMicro 10, Event.readWord kSMBusBatteryAddr kBVoltageCmd]) :=
  ⟨by decide,
   (c3_retry_policy kBVoltageCmd c3WitnessTxn baseState (by decide) (by decide)
      (by decide)).1 rfl⟩

/-- Claim C4: a successful read of value zero is retried for full charge
capacity and design capacity unconditionally, and for remaining capacity
exactly when the fully discharged flag is false; with the flag true the zero
is accepted immediately without retry (with the zero capacity log). The
final two conjuncts exhibit the code bug in the budget part of the claim:
with the retry budget already exhausted (count 5), the ok completion resets
the counter and the machine retries the zero read again instead of accepting
the value, so the zero is never accepted through budget exhaustion. -/
theorem c4_zero_capacity_policy :
    (transactionCompletion kBFullChargeCapacityCmd (some (c4ZeroTxn kBFullChargeCapacityCmd)) c4State).2
      = [Event.delayMicro 10, Event.readWord kSMBusBatteryAddr kBFullChargeCapacityCmd] ∧
    (transactionCompletion kBFullChargeCapacityCmd (some (c4ZeroTxn kBFullChargeCapacityCmd)) c4State).1.fRetryAttempts = 1 ∧
    (transactionCompletion kBDesignCapacityCmd (some (c4ZeroTxn kBDesignCapacityCmd)) c4State).2
      = [Event.delayMicro 10, Event.readWord kSMBusBatteryAddr kBDesignCapacityCmd] ∧
    (transactionCompletion kBRemainingCapacityCmd (some (c4ZeroTxn kBRemainingCapacityCmd)) c4State).2
      = [Event.delayMicro 10, Event.readWord kSMBusBatteryAddr kBRemainingCapacityCmd] ∧
    (transactionCompletion kBRemainingCapacityCmd (some (c4ZeroTxn kBRemainingCapacityCmd))
        { c4State with fFullyDischarged := true }).2
      = [Event.logError ErrKind.zeroCapacity, Event.readWord kSMBusBatteryAddr kBFullChargeCapacityCmd] ∧
    (transactionCompletion kBRemainingCapacityCmd (some (c4ZeroTxn kBRemainingCapacityCmd))
        { c4State with fFullyDischarged := true }).1.fRemainingCapacity = 0 ∧
    (transactionCompletion kBFullChargeCapacityCmd (some (c4ZeroTxn kBFullChargeCapacityCmd))
        { c4State with fRetryAttempts := kRetryAttempts }).2
      = [Event.delayMicro 10, Event.readWord kSMBusBatteryAddr kBFullChargeCapacityCmd] ∧
    (transactionCompletion kBFullChargeCapacityCmd (some (c4ZeroTxn kBFullChargeCapacityCmd))
        { c4State with fRetryAttempts := kRetryAttempts }).1.fRetryAttempts = 1 := by
  decide

/-- Counterexample to claim C5 as stated: with the battery charging (average
current +50, so not discharging), the remaining to full charge ratio below
five percent, and AC connected, the machine still selects the quick poll
interval - the code never consults the discharging state. -/
theorem c5_quick_poll_without_discharge :
    (0 : Int) < c5State.fAvgCurrent ∧
    (transactionCompletion kBFullChargeCapacityCmd (some c5Txn) c5State).1.fPollingInterval
      = kQuickPollInterval := by
  decide

/-- Claim C5 as amended: on a successful nonzero full charge capacity read
with no debug override, the poll interval becomes quick exactly when the
remaining to full charge ratio is below five percent and AC is connected
(discharging is not consulted); with the override active the interval is
never changed, and at the terminal state the override interval is used
unconditionally: a nonzero override arms the timer with 1000 times the
override value, a zero override immediately starts the next sequence, and
without an override the timer uses the polling table entry. -/
theorem c5_interval_selection (t : IOSMBusTransaction) (s : BState)
    (hc : s.fCancelPolling = false) (hb : s.fRebootPolling = false)
    (hok : t.status = IOSMBusStatus.ok) (hr : s.fRetryAttempts = 0)
    (_hcw : t.command = kBFullChargeCapacityCmd)
    (hnz : t.receiveData.getD 0 0 % 256 ≠ 0 ∨ t.receiveData.getD 1 0 % 256 ≠ 0) :
    (s.fPollingOverridden = false →
       (transactionCompletion kBFullChargeCapacityCmd (some t) s).1.fPollingInterval =
         if 100 * s.fRemainingCapacity / word16 t < 5 ∧ s.fACConnected = true
         then kQuickPollInterval else kDefaultPollInterval) ∧
    (s.fPollingOverridden = true →
       (transactionCompletion kBFullChargeCapacityCmd (some t) s).1.fPollingInterval =
         s.fPollingInterval) ∧
    (∀ (t2 : IOSMBusTransaction) (s2 : BState),
       s2.fCancelPolling = false → s2.fRebootPolling = false →
       t2.status = IOSMBusStatus.ok → s2.fRetryAttempts = 0 →
       t2.command = kBCurrentCmd → s2.fStalledByUserClient = false →
       (s2.fPollingOverridden = true → s2.fPollingInterval ≠ 0 →
          Event.setPollTimerMS (1000 * s2.fPollingInterval) ∈
            (transactionCompletion kBCurrentCmd (some t2) s2).2) ∧
       (s2.fPollingOverridden = true → s2.fPollingInterval = 0 →
          Event.readWord kSMBusManagerAddr kMStateContCmd ∈
            (transactionCompletion kBCurrentCmd (some t2) s2).2) ∧
       (s2.fPollingOverridden = false → s2.fACConnected = false →
          Event.setPollTimerMS (s2.msPollingTable.getD s2.fPollingInterval 0) ∈
            (transactionCompletion kBCurrentCmd (some t2) s2).2)) := by
  have hw := word16_ne_zero t hnz
  rw [ok_dispatch_nonzero kBFullChargeCapacityCmd t s hc hb hok hr hnz]
  refine ⟨?_, ?_, ?_⟩
  · intro hov
    simp only [dispatch, hok]
    norm_num [kBFullChargeCapacityCmd, kMStateContCmd, kMStateCmd, kBBatteryStatusCmd,
      kBManufactureNameCmd, kBManufactureDateCmd, kBDeviceNameCmd, kBSerialNumberCmd,
      kBDesignCapacityCmd, kBRemainingCapacityCmd]
    simp [hov, hw]
    by_cases hq : 100 * s.fRemainingCapacity / word16 t < 5 ∧ s.fACConnected = true
    · simp [hq.1, hq.2]
    · push_neg at hq
      by_cases h5 : 100 * s.fRemainingCapacity / word16 t < 5
      · simp [h5, hq h5]
      · simp [h5]
  · intro hov
    simp only [dispatch, hok]
    norm_num [kBFullChargeCapacityCmd, kMStateContCmd, kMStateCmd, kBBatteryStatusCmd,
      kBManufactureNameCmd, kBManufactureDateCmd, kBDeviceNameCmd, kBSerialNumberCmd,
      kBDesignCapacityCmd, kBRemainingCapacityCmd]
    simp [hov]
  · intro t2 s2 hc2 hb2 hok2 hr2 hcmd2 hst2
    rw [ok_dispatch_nocap kBCurrentCmd t2 s2 hc2 hb2 hok2 hr2
        (by rw [hcmd2]; decide) (by rw [hcmd2]; decide) (by rw [hcmd2]; decide)]
    simp only [dispatch, hok2]
    norm_num [kBCurrentCmd, kMStateContCmd, kMStateCmd, kBBatteryStatusCmd,
      kBManufactureNameCmd, kBManufactureDateCmd, kBDeviceNameCmd, kBSerialNumberCmd,
      kBDesignCapacityCmd, kBRemainingCapacityCmd, kBFullChargeCapacityCmd,
      kBAverageCurrentCmd, kBVoltageCmd, kBMaxErrorCmd, kBCycleCountCmd,
      kBAverageTimeToEmptyCmd, kBAverageTimeToFullCmd, kBTemperatureCmd,
      kBReadCellVoltage1Cmd, kBReadCellVoltage2Cmd, kBReadCellVoltage3Cmd,
      kBReadCellVoltage4Cmd]
    refine ⟨?_, ?_, ?_⟩
    · intro hov hpi
      by_cases hcd : 0 < s2.fInitialPollCountdown <;>
        simp [hov, hpi, hcd]
    · intro hov hpi
      simp [hov, hpi, pollBatteryState, hst2, startFromNull, startSequence, kMStateContCmd]
    · intro hov hac
      by_cases hcd : 0 < s2.fInitialPollCountdown <;>
        simp [hov, hac, hcd]

/-- Witness for claim C5 at a concrete input: ratio 50 percent on AC keeps
the default interval. -/
theorem c5_interval_selection_witness :
    c5WitnessState.fPollingOverridden = false ∧
    (transactionCompletion kBFullChargeCapacityCmd (some c5Txn) c5WitnessState).1.fPollingInterval
      = kDefaultPollInterval :=
  ⟨rfl, by
    have h := (c5_interval_selection c5Txn c5WitnessState (by decide) (by decide) rfl
      (by decide) rfl (by decide)).1 rfl
    rw [h]
    decide⟩

/-- Counterexample to claim C6 as stated: requesting a poll on the existing
battery path mid sequence sets only the restart flag (no read issued), the
next completion restarts the machine at state 0, but the machine path of the
restarted sequence is the existing battery path, not NewBattery. -/
theorem c6_mid_run_restart_keeps_requested_path :
    (pollBatteryState MachinePath.existingBattery c6State).2 = [] ∧
    (pollBatteryState MachinePath.existingBattery c6State).1.fRebootPolling = true ∧
    (transactionCompletion kBVoltageCmd (some c6Txn)
        (pollBatteryState MachinePath.existingBattery c6State).1).2 =
      [Event.cancelPollTimer, Event.cancelReadAllTimer,
       Event.setReadAllTimerMS kBatteryReadAllTimeout,
       Event.readWord kSMBusManagerAddr kMStateContCmd] ∧
    ¬((transactionCompletion kBVoltageCmd (some c6Txn)
        (pollBatteryState MachinePath.existingBattery c6State).1).1.fMachinePath =
      MachinePath.newBattery) := by
  decide

/-- Claim C6 as amended: pollBatteryState during an in flight sequence never
starts a second sequence - it only records the requested path and sets the
restart flag; the next transaction completion consumes the flag and restarts
at state 0 (the start sequence branch), and the machine path of the restart
equals the path argument of the interrupting call, whichever it was. -/
theorem c6_no_concurrent_sequence (path : MachinePath) (s : BState)
    (hst : s.fStalledByUserClient = false) (hp : s.fPollingNow = true) :
    pollBatteryState path s = ({ s with fMachinePath := path, fRebootPolling := true }, []) ∧
    (∀ (ref : Nat) (t : IOSMBusTransaction) (s2 : BState),
       s2.fRebootPolling = true → s2.fCancelPolling = false →
       transactionCompletion ref (some t) s2 =
         startSequence { s2 with fRebootPolling := false }) ∧
    (s.fCancelPolling = false → ∀ (ref : Nat) (t : IOSMBusTransaction),
       (transactionCompletion ref (some t) (pollBatteryState path s).1).1.fMachinePath = path ∧
       (transactionCompletion ref (some t) (pollBatteryState path s).1).2 =
         [Event.cancelPollTimer, Event.cancelReadAllTimer,
          Event.setReadAllTimerMS kBatteryReadAllTimeout,
          Event.readWord kSMBusManagerAddr kMStateContCmd]) := by
  refine ⟨?_, ?_, ?_⟩
  · simp [pollBatteryState, hst, hp]
  · intro ref t s2 h1 h2
    simp [transactionCompletion, h1, h2]
  · intro hcp ref t
    simp [pollBatteryState, hst, hp, transactionCompletion, hcp, startSequence]

/-- Witness for claim C6 at a concrete input. -/
theorem c6_no_concurrent_sequence_witness :
    c6State.fPollingNow = true ∧
    pollBatteryState MachinePath.existingBattery c6State =
      ({ c6State with fMachinePath := MachinePath.existingBattery, fRebootPolling := true }, []) :=
  ⟨rfl,
   (c6_no_concurrent_sequence MachinePath.existingBattery c6State (by decide) (by decide)).1⟩

/-- Counterexample to claim C7 as stated: a complete successful polling
sequence (driven end to end, reaching the terminal state and publishing) does
not reset the stall restart budget to its maximum - the budget stays at the
7 it started with, because no code path ever replenishes
fIncompleteReadRetries. -/
theorem c7_completed_sequence_keeps_budget :
    c7Run.fPollingNow = false ∧
    c7Run.realCurrentProp = 100 ∧
    c7Run.fRemainingCapacity = 100 ∧
    ¬(c7Run.fIncompleteReadRetries = kIncompleteReadRetryMax) ∧
    c7Run.fIncompleteReadRetries = c7Start.fIncompleteReadRetries := by
  decide

/-- Claim C7 as amended: each overall read timeout logs the stall and, while
the budget is positive, decrements it and requests a full restart on the new
battery path (restart flag set at the next transaction boundary); with the
budget exhausted the stall only logs and requests nothing; from the full
budget of 10, ten consecutive stalls reach 0, and the eleventh changes
nothing. The budget is never reset by a completed sequence. -/
theorem c7_stall_budget (s : BState) :
    (s.fIncompleteReadRetries = 0 →
       incompleteReadTimeOut s = (s, [Event.logError ErrKind.overallTimeoutExpired])) ∧
    (0 < s.fIncompleteReadRetries → s.fStalledByUserClient = false → s.fPollingNow = true →
       incompleteReadTimeOut s =
         ({ s with fIncompleteReadRetries := s.fIncompleteReadRetries - 1,
                   fMachinePath := MachinePath.newBattery, fRebootPolling := true },
          [Event.logError ErrKind.overallTimeoutExpired])) ∧
    (stallState^[kIncompleteReadRetryMax]
        { baseState with fPollingNow := true }).fIncompleteReadRetries = 0 ∧
    incompleteReadTimeOut (stallState^[kIncompleteReadRetryMax]
        { baseState with fPollingNow := true }) =
      (stallState^[kIncompleteReadRetryMax] { baseState with fPollingNow := true },
       [Event.logError ErrKind.overallTimeoutExpired]) := by
  refine ⟨?_, ?_, by decide, by decide⟩
  · intro h
    simp [incompleteReadTimeOut, h]
  · intro h1 h2 h3
    simp [incompleteReadTimeOut, pollBatteryState, h1, h2, h3]

/-- Witness for claim C7 at a concrete input: with budget 4 and a sequence
in flight, a stall decrements to 3 and requests a new battery restart. -/
theorem c7_stall_budget_witness :
    0 < c7WitnessState.fIncompleteReadRetries ∧
    incompleteReadTimeOut c7WitnessState =
      ({ c7WitnessState with fIncompleteReadRetries := 3,
                             fMachinePath := MachinePath.newBattery, fRebootPolling := true },
       [Event.logError ErrKind.overallTimeoutExpired]) :=
  ⟨by decide,
   (c7_stall_budget c7WitnessState).2.1 (by decide) (by decide) (by decide)⟩

/-- Claim C8: at the terminal state of a sequence (battery present, as any
sequence that reaches the terminal read has), the events of the completion
neither arm the poll timer nor start a new sequence exactly when AC is
connected, the battery is fully charged, the initial poll countdown has
reached zero, and no polling override is active. -/
theorem c8_rearm_condition (t : IOSMBusTransaction) (s : BState)
    (hc : s.fCancelPolling = false) (hb : s.fRebootPolling = false)
    (hok : t.status = IOSMBusStatus.ok) (hr : s.fRetryAttempts = 0)
    (hcw : t.command = kBCurrentCmd) (hstall : s.fStalledByUserClient = false)
    (hpres : s.fBatteryPresent = true) :
    noRepoll (transactionCompletion kBCurrentCmd (some t) s).2 = true ↔
      (s.fACConnected = true ∧ s.fFullyCharged = true ∧
       s.fInitialPollCountdown = 0 ∧ s.fPollingOverridden = false) := by
  rw [ok_dispatch_nocap kBCurrentCmd t s hc hb hok hr (by rw [hcw]; decide)
      (by rw [hcw]; decide) (by rw [hcw]; decide)]
  simp only [dispatch, hok]
  norm_num [kBCurrentCmd, kMStateContCmd, kMStateCmd, kBBatteryStatusCmd,
    kBManufactureNameCmd, kBManufactureDateCmd, kBDeviceNameCmd, kBSerialNumberCmd,
    kBDesignCapacityCmd, kBRemainingCapacityCmd, kBFullChargeCapacityCmd,
    kBAverageCurrentCmd, kBVoltageCmd, kBMaxErrorCmd, kBCycleCountCmd,
    kBAverageTimeToEmptyCmd, kBAverageTimeToFullCmd, kBTemperatureCmd,
    kBReadCellVoltage1Cmd, kBReadCellVoltage2Cmd, kBReadCellVoltage3Cmd,
    kBReadCellVoltage4Cmd]
  cases hov : s.fPollingOverridden <;>
    cases hac : s.fACConnected <;>
    cases hfc : s.fFullyCharged <;>
    rcases hcd : s.fInitialPollCountdown with _ | n <;>
    by_cases hpi : s.fPollingInterval = 0 <;>
    simp [hov, hac, hfc, hcd, hpi, hpres, hstall, noRepoll, isPollTimerArm, isReadIssue,
      pollBatteryState, startFromNull, startSequence, hc]

/-- Witness for claim C8 at a concrete input: AC connected, fully charged,
countdown exhausted, no override - the terminal completion schedules no
further poll. -/
theorem c8_rearm_condition_witness :
    c8WitnessState.fBatteryPresent = true ∧
    noRepoll (transactionCompletion kBCurrentCmd (some c8WitnessTxn) c8WitnessState).2 = true :=
  ⟨by decide,
   (c8_rearm_condition c8WitnessTxn c8WitnessState (by decide) (by decide) rfl (by decide)
      rfl (by decide) (by decide)).mpr (by decide)⟩

/-- Claim C9: every retry of a failed transaction is issued as a word read
to the same address and command - the retry events contain the word read and
never a block read, whatever the protocol of the failed transaction was. -/
theorem c9_retry_uses_read_word (ref : Nat) (t : IOSMBusTransaction) (s : BState)
    (hc : s.fCancelPolling = false) (hb : s.fRebootPolling = false)
    (hs : statusNeedsRetry t.status = true) (hn : s.fRetryAttempts < kRetryAttempts) :
    Event.readWord t.address t.command ∈ (transactionCompletion ref (some t) s).2 ∧
    ∀ a c, Event.readBlock a c ∉ (transactionCompletion ref (some t) s).2 := by
  rw [retry_step ref t s hc hb hs hn]
  constructor
  · simp
  · intro a c
    split <;> simp

/-- Witness for claim C9 at a concrete input: a timed out block read of the
manufacturer name is retried as a word read, with no block read issued. -/
theorem c9_retry_uses_read_word_witness :
    c9WitnessTxn.protocol = SMBusProtocol.readBlock ∧
    statusNeedsRetry c9WitnessTxn.status = true ∧
    Event.readWord kSMBusBatteryAddr kBManufactureNameCmd ∈
      (transactionCompletion kBManufactureNameCmd (some c9WitnessTxn) baseState).2 ∧
    (∀ a c, Event.readBlock a c ∉
      (transactionCompletion kBManufactureNameCmd (some c9WitnessTxn) baseState).2) :=
  ⟨rfl, by decide,
   (c9_retry_uses_read_word kBManufactureNameCmd c9WitnessTxn baseState (by decide) (by decide)
      (by decide) (by decide)).1,
   (c9_retry_uses_read_word kBManufactureNameCmd c9WitnessTxn baseState (by decide) (by decide)
      (by decide) (by decide)).2⟩

/-- Counterexample to claim C10 as stated: a controller status read
completing with the retryable busy status and retry budget left does not
publish anything - the machine retries the same read, leaving the internal
AC flag true and the published external connected flag false. -/
theorem c10_retryable_failure_retries_first :
    statusNeedsRetry c10Txn.status = true ∧
    (transactionCompletion kMStateContCmd (some c10Txn) c10State).1.fACConnected = true ∧
    (transactionCompletion kMStateContCmd (some c10Txn) c10State).1.extConnected = false ∧
    (transactionCompletion kMStateContCmd (some c10Txn) c10State).2 =
      [Event.delayMicro 10, Event.readWord kSMBusManagerAddr kMStateContCmd] := by
  decide

/-- Claim C10 as amended: a controller status read that definitively fails
(non recoverable status, or retryable status with the retry budget
exhausted) sets the internal AC flag to false yet publishes external
connected as true and external charge capable as false, and proceeds to the
next read (the manager state command) - so the published AC state and the
internal flag disagree on this path. -/
theorem c10_definitive_failure_publishes_disagreement
    (t : IOSMBusTransaction) (s : BState)
    (hc : s.fCancelPolling = false) (hb : s.fRebootPolling = false)
    (hfail : statusNonRecoverable t.status = true ∨
             (statusNeedsRetry t.status = true ∧ s.fRetryAttempts = kRetryAttempts)) :
    (transactionCompletion kMStateContCmd (some t) s).1.fACConnected = false ∧
    (transactionCompletion kMStateContCmd (some t) s).1.extConnected = true ∧
    (transactionCompletion kMStateContCmd (some t) s).1.extChargeCapable = false ∧
    Event.readWord kSMBusManagerAddr kMStateCmd ∈
      (transactionCompletion kMStateContCmd (some t) s).2 := by
  rcases hfail with hnr | ⟨hs, h5⟩
  · have hne := (statusNonRecoverable_classify t.status hnr).1
    rw [nonrec_step kMStateContCmd t s hc hb hnr, dispatch_mstatecont_fail t s hne]
    simp
  · have hne := (statusNeedsRetry_classify t.status hs).1
    rw [giveup_step kMStateContCmd t s hc hb hs h5,
        dispatch_mstatecont_fail t { s with fRetryAttempts := 0 } hne]
    simp

/-- Witness for claim C10 at a concrete input: a parity error completion. -/
theorem c10_definitive_failure_witness :
    statusNonRecoverable c10WitnessTxn.status = true ∧
    (transactionCompletion kMStateContCmd (some c10WitnessTxn) c10State).1.fACConnected = false ∧
    (transactionCompletion kMStateContCmd (some c10WitnessTxn) c10State).1.extConnected = true :=
  ⟨by decide,
   (c10_definitive_failure_publishes_disagreement c10WitnessTxn c10State (by decide)
      (by decide) (Or.inl (by decide))).1,
   (c10_definitive_failure_publishes_disagreement c10WitnessTxn c10State (by decide)
      (by decide) (Or.inl (by decide))).2.1⟩

end SmartBattery
